import Mathlib

/-!
Shallow embedding of the stream-reconciliation and submission logic of the
`Thread` component (src/webapp/src/components/graph/GraphVisualization.tsx,
second concatenated module).  React state hooks and refs become fields of an
explicit `ThreadState`; each event handler becomes a pure function from the
old state (plus the values it reads from the stream context) to the new state
together with the `stream.submit` call it makes, if any.  Effects
(`useEffect` bodies) become pure step functions on the state they touch.
-/

namespace Techrag

/-- Message type tag: `type` field of a LangGraph SDK `Message`
(`"human" | "ai" | "tool"`). -/
inductive MsgType where
  | human
  | ai
  | tool
  deriving DecidableEq, Repr

/-- One entry of a message's `content` array: a `{type: "text", text}` block
or an attachment block produced by the file-upload hook. -/
inductive ContentBlock where
  | text (text : String)
  | attachment (payload : String)
  deriving DecidableEq, Repr

/-- A transcript message.  `id` is optional (`m.id?` in the source);
`toolCalls` holds the ids of the tool invocations issued by an ai message;
`toolCallId` is the invocation a tool message responds to. -/
structure Msg where
  id : Option String := none
  type : MsgType
  content : List ContentBlock := []
  toolCalls : List String := []
  toolCallId : Option String := none
  deriving DecidableEq, Repr

/-- Opaque backend-issued checkpoint reference (`Checkpoint` from the SDK). -/
structure Checkpoint where
  checkpointId : String
  deriving DecidableEq, Repr

/-- A stream error value; `.message` may be absent (`undefined` in JS) or an
empty string, both of which are falsy in the source's `!message` test. -/
structure StreamError where
  message : Option String := none
  deriving DecidableEq, Repr

/-- The slice of `useStreamContext()` the handlers read:
`stream.messages`, `stream.isLoading`, `stream.error`. -/
structure StreamView where
  messages : List Msg := []
  isLoading : Bool := false
  error : Option StreamError := none

/-- The `prev` record an `optimisticValues` callback receives and the next
value it returns: the thread values carrying `messages` and `context`. -/
structure StreamValues where
  messages : List Msg := []
  context : Option (List (String × String)) := none

/-- First argument of `stream.submit`: `{ messages, context }`.
`context := none` models the field being `undefined` (omitted), never `{}`. -/
structure Payload where
  messages : List Msg
  context : Option (List (String × String)) := none

/-- A recorded `stream.submit(payload, options)` call.  `payload := none`
models the literal `undefined` first argument of a regeneration.  The outer
`Option` on `checkpoint` records whether the options object carries a
`checkpoint` key at all; the inner option is the `Checkpoint | null |
undefined` value passed. -/
structure SubmitCall where
  payload : Option Payload
  checkpoint : Option (Option Checkpoint) := none
  streamMode : List String := ["values"]
  streamSubgraphs : Bool := true
  streamResumable : Bool := true
  optimisticValues : Option (StreamValues → StreamValues) := none

/-- The component-local state the handlers read and write: the `input` and
`contentBlocks` buffers, the `firstTokenReceived` flag, the
`prevMessageLength` ref (an `Int`, since `handleRegenerate` decrements it
below zero when it is `0`), the artifact context and side-panel flag, and
the `threadId` query-state. -/
structure ThreadState where
  input : String := ""
  contentBlocks : List ContentBlock := []
  firstTokenReceived : Bool := false
  prevMessageLength : Int := 0
  artifactContext : List (String × String) := []
  artifactOpen : Bool := false
  threadId : Option String := none
  deriving DecidableEq, Repr

/-- Result of running a handler: the updated component state and the
`stream.submit` call it issued, if any. -/
structure HandlerResult where
  state : ThreadState
  call : Option SubmitCall

/-- Modelled from the spec: the reserved internal-only id prefix exported by
the `ensure-tool-responses` library module, which is not under src/ (only
its import and call sites are).  The spec calls it "a reserved id prefix"
marking synthetic bookkeeping entries; the concrete string is irrelevant to
every property proved below. -/
def DO_NOT_RENDER_ID_PREFIX : String := "do-not-render-"

/-- Tests whether a message is a tool-response message. -/
def isToolMsg (m : Msg) : Bool :=
  match m.type with
  | MsgType.tool => true
  | _ => false

/-- Tests whether a message is an ai message issuing at least one tool
invocation. -/
def aiWithCalls (m : Msg) : Bool :=
  match m.type, m.toolCalls with
  | MsgType.ai, _ :: _ => true
  | _, _ => false

/-- Modelled from the spec: the synthesized tool-response entry inserted for
an unanswered invocation; it carries the reserved internal-only id prefix so
the render projection hides it. -/
def synthToolResponse (callId : String) : Msg :=
  { id := some ( DO_NOT_RENDER_ID_PREFIX ++ callId)
    type := MsgType.tool
    toolCallId := some callId }

/-- Modelled from the spec: the normalization walk.  `pending` holds the
tool-call ids of the most recent ai message that are still unanswered; each
immediately-following tool response discharges its id, and the synthesized
responses for the ids still pending are inserted right before the next
non-tool message (or at the end of the transcript). -/
def ensureGo : List String → List Msg → List Msg
  | pending, [] => pending.map synthToolResponse
  | pending, m :: rest =>
    if isToolMsg m then
      m :: ensureGo (pending.filter (fun c => !decide (m.toolCallId = some c))) rest
    else
      pending.map synthToolResponse ++
        (if aiWithCalls m then m :: ensureGo m.toolCalls rest
         else m :: ensureGo [] rest)

/-- Modelled from the spec: `ensureToolCallsHaveResponses` from the
`ensure-tool-responses` library module, which is not under src/.  Per spec
§4.3 it maps a transcript to one in which every ai message issuing tool
invocations is immediately followed by a matching tool-response message for
each invocation, synthesizing the missing ones. -/
def ensureToolCallsHaveResponses (transcript : List Msg) : List Msg :=
  ensureGo [] transcript

/-- JavaScript `String.prototype.trim`: strips leading and trailing
whitespace.  Embedded over the character list so that it stays
kernel-computable. -/
def jsTrim (s : String) : String :=
  String.mk
    (((s.data.dropWhile Char.isWhitespace).reverse.dropWhile
        Char.isWhitespace).reverse)

/-- The guard of `handleSubmit`:
`(input.trim().length === 0 && contentBlocks.length === 0) || isLoading`. -/
def submitBlocked (st : ThreadState) (stream : StreamView) : Bool :=
  ((jsTrim st.input).length == 0 && st.contentBlocks.length == 0) ||
    stream.isLoading

/-- The `newHumanMessage` built by `handleSubmit`: a text block holding the
raw (untrimmed) input when the trimmed input is non-empty, followed by the
pending content blocks. -/
def newHumanMessage (freshId : String) (input : String)
    (blocks : List ContentBlock) : Msg :=
  { id := some freshId
    type := MsgType.human
    content :=
      (if (jsTrim input).length > 0 then [ContentBlock.text input] else []) ++
        blocks }

/-- `handleSubmit`: returns early when the guard holds; otherwise resets
`firstTokenReceived`, normalizes the existing history, attaches the artifact
context only when it has at least one key, submits, and clears the input and
content-block buffers.  `freshId` stands for the `uuidv4()` call. -/
def handleSubmit (freshId : String) (stream : StreamView)
    (st : ThreadState) : HandlerResult :=
  if submitBlocked st stream then
    { state := st, call := none }
  else
    let human := newHumanMessage freshId st.input st.contentBlocks
    let toolMessages := ensureToolCallsHaveResponses stream.messages
    let context :=
      if st.artifactContext.length > 0 then some st.artifactContext else none
    { state := { st with firstTokenReceived := false, input := "", contentBlocks := [] }
      call := some
        { payload := some { messages := toolMessages ++ [human], context := context }
          optimisticValues := some (fun prev =>
            { prev with
                context := context
                messages := prev.messages ++ toolMessages ++ [human] }) } }

/-- `handleSuggestedPrompt`: returns early while loading; otherwise resets
`firstTokenReceived` and submits a single human message with no context
field. -/
def handleSuggestedPrompt (freshId : String) (prompt : String)
    (stream : StreamView) (st : ThreadState) : HandlerResult :=
  if stream.isLoading then
    { state := st, call := none }
  else
    let human : Msg :=
      { id := some freshId, type := MsgType.human
        content := [ContentBlock.text prompt] }
    { state := { st with firstTokenReceived := false }
      call := some
        { payload := some { messages := [human] }
          optimisticValues := some (fun prev =>
            { prev with messages := prev.messages ++ [human] }) } }

/-- `handleRegenerate`: decrements the `prevMessageLength` ref, resets
`firstTokenReceived`, and submits `undefined` anchored at the given parent
checkpoint.  It reads nothing from the stream context and has no guard. -/
def handleRegenerate (parentCheckpoint : Option Checkpoint)
    (st : ThreadState) : HandlerResult :=
  { state := { st with
      prevMessageLength := st.prevMessageLength - 1
      firstTokenReceived := false }
    call := some { payload := none, checkpoint := some parentCheckpoint } }

/-- The `setThreadId` wrapper: stores the id, closes the artifact side
panel, and resets the artifact context to the empty object. -/
def setThreadId (id : Option String) (st : ThreadState) : ThreadState :=
  { st with threadId := id, artifactOpen := false, artifactContext := [] }

/-- Whether the last transcript entry exists and is an ai message
(`messages[messages.length - 1].type === "ai"`). -/
def lastIsAi (messages : List Msg) : Bool :=
  match messages.getLast? with
  | some m =>
    match m.type with
    | MsgType.ai => true
    | _ => false
  | none => false

/-- The `prevMessageLength` effect: when the transcript length differs from
the stored length, the transcript is non-empty, and its last entry is an ai
message, set `firstTokenReceived`; in every case store the new length.
Returns (new stored length, new flag). -/
def messagesEffect (messages : List Msg) (prevLen : Int)
    (firstTokenReceived : Bool) : Int × Bool :=
  if (messages.length : Int) ≠ prevLen ∧ messages.length ≠ 0 ∧
      lastIsAi messages = true then
    ((messages.length : Int), true)
  else
    ((messages.length : Int), firstTokenReceived)

/-- One run of the `stream.error` effect: given the current error value and
the `lastError` ref, returns the new ref value and the list of toast
notifications emitted (each carrying the error message text). -/
def errorEffect (err : Option StreamError) (lastError : Option String) :
    Option String × List String :=
  match err with
  | none => (none, [])
  | some e =>
    match e.message with
    | none => (lastError, [])
    | some msg =>
      if msg = "" ∨ lastError = some msg then (lastError, [])
      else (some msg, [msg])

/-- Folds a sequence of `stream.error` values through the error effect,
collecting every toast emitted along the way. -/
def runErrorEvents (events : List (Option StreamError))
    (lastError : Option String) : Option String × List String :=
  events.foldl
    (fun acc ev =>
      let next := errorEffect ev acc.1
      (next.1, acc.2 ++ next.2))
    (lastError, [])

/-- Whether a message survives the render filter:
`!m.id?.startsWith(DO_NOT_RENDER_ID_PREFIX)` — a message with no id is
always rendered. -/
def shouldRender (m : Msg) : Bool :=
  match m.id with
  | none => true
  | some s => !(s.startsWith DO_NOT_RENDER_ID_PREFIX)

/-- The externally visible projection of the transcript:
`messages.filter((m) => !m.id?.startsWith(DO_NOT_RENDER_ID_PREFIX))`. -/
def renderProjection (messages : List Msg) : List Msg :=
  messages.filter shouldRender

/-- Payload `context` field of the submit call a handler issued, if any. -/
def callPayloadContext (r : HandlerResult) :
    Option (Option (List (String × String))) :=
  (r.call.bind (fun c => c.payload)).map (fun p => p.context)

/-- Context field of the state produced by the submitted optimistic update
applied to `prev`, if the call carried one. -/
def callOptimisticContext (r : HandlerResult) (prev : StreamValues) :
    Option (Option (List (String × String))) :=
  (r.call.bind (fun c => c.optimisticValues)).map (fun f => (f prev).context)

/-! ## Helper lemmas for the tool-call normalizer -/

/-- A synthesized tool response is a tool message. -/
theorem isToolMsg_synth (c : String) : isToolMsg (synthToolResponse c) = true := rfl

/-- Unfolding `ensureGo` at a tool message. -/
theorem ensureGo_cons_tool (q : List String) (m : Msg) (rest : List Msg)
    (h : isToolMsg m = true) :
    ensureGo q (m :: rest) =
      m :: ensureGo (q.filter (fun c => !decide (m.toolCallId = some c))) rest := by
  simp [ensureGo, h]

/-- Unfolding `ensureGo` at an ai message issuing tool invocations. -/
theorem ensureGo_cons_ai (q : List String) (m : Msg) (rest : List Msg)
    (h : isToolMsg m = false) (hai : aiWithCalls m = true) :
    ensureGo q (m :: rest) =
      q.map synthToolResponse ++ (m :: ensureGo m.toolCalls rest) := by
  simp [ensureGo, h, hai]

/-- Unfolding `ensureGo` at a non-tool message issuing no invocations. -/
theorem ensureGo_cons_plain (q : List String) (m : Msg) (rest : List Msg)
    (h : isToolMsg m = false) (hai : aiWithCalls m = false) :
    ensureGo q (m :: rest) =
      q.map synthToolResponse ++ (m :: ensureGo [] rest) := by
  simp [ensureGo, h, hai]

/-- Pending ids left after the walk consumes a block of synthesized
responses: each response discharges every copy of its own id. -/
def removePending (q : List String) (p : List String) : List String :=
  p.foldl (fun acc c => acc.filter (fun x => !decide (c = x))) q

/-- The filter a synthesized response applies to the pending list only
compares the underlying call ids. -/
theorem filter_synth (c : String) (q : List String) :
    q.filter (fun x => !decide ((synthToolResponse c).toolCallId = some x)) =
      q.filter (fun x => !decide (c = x)) := by
  apply List.filter_congr
  intro x _
  simp [synthToolResponse]

/-- Running the walk over a block of synthesized responses passes the block
through unchanged and discharges the corresponding pending ids. -/
theorem ensureGo_synth_append (p : List String) : ∀ (q : List String) (l : List Msg),
    ensureGo q (p.map synthToolResponse ++ l) =
      p.map synthToolResponse ++ ensureGo (removePending q p) l := by
  induction p with
  | nil =>
    intro q l
    simp [removePending]
  | cons c p ih =>
    intro q l
    have h1 : ensureGo q ((synthToolResponse c :: p.map synthToolResponse) ++ l) =
        synthToolResponse c ::
          ensureGo (q.filter (fun x => !decide (c = x)))
            (p.map synthToolResponse ++ l) := by
      rw [List.cons_append, ensureGo_cons_tool _ _ _ (isToolMsg_synth c), filter_synth]
    rw [List.map_cons, h1, ih]
    rfl

/-- When every pending id is among the block being consumed, nothing stays
pending afterwards. -/
theorem removePending_eq_nil (p : List String) :
    ∀ q, (∀ x ∈ q, x ∈ p) → removePending q p = [] := by
  induction p with
  | nil =>
    intro q h
    have hq : q = [] := by
      cases q with
      | nil => rfl
      | cons a as => exact absurd (h a (by simp)) (by simp)
    rw [hq]; rfl
  | cons c p ih =>
    intro q h
    show removePending (q.filter (fun x => !decide (c = x))) p = []
    apply ih
    intro x hx
    rw [List.mem_filter] at hx
    obtain ⟨hxq, hxc⟩ := hx
    have hne : c ≠ x := by simpa using hxc
    have hmem := h x hxq
    simp only [List.mem_cons] at hmem
    rcases hmem with h' | hmem
    · exact absurd h'.symm hne
    · exact hmem

/-- The normalization walk is idempotent for every starting pending list. -/
theorem ensureGo_idem (l : List Msg) :
    ∀ p, ensureGo p (ensureGo p l) = ensureGo p l := by
  induction l with
  | nil =>
    intro p
    show ensureGo p (p.map synthToolResponse) = p.map synthToolResponse
    have h := ensureGo_synth_append p p []
    rw [List.append_nil] at h
    rw [h, removePending_eq_nil p p (fun x hx => hx)]
    simp [ensureGo]
  | cons m rest ih =>
    intro p
    cases ht : isToolMsg m with
    | true =>
      rw [ensureGo_cons_tool p m rest ht,
        ensureGo_cons_tool _ m _ ht, ih]
    | false =>
      cases ha : aiWithCalls m with
      | true =>
        rw [ensureGo_cons_ai p m rest ht ha,
          ensureGo_synth_append p p (m :: ensureGo m.toolCalls rest),
          removePending_eq_nil p p (fun x hx => hx),
          ensureGo_cons_ai ([]) m _ ht ha, ih m.toolCalls]
        simp
      | false =>
        rw [ensureGo_cons_plain p m rest ht ha,
          ensureGo_synth_append p p (m :: ensureGo [] rest),
          removePending_eq_nil p p (fun x hx => hx),
          ensureGo_cons_plain ([]) m _ ht ha, ih []]
        simp

/-! ## Claim theorems -/

/-- Claim C1: when the trimmed input is empty and the pending content-block
list is empty, `handleSubmit` returns before calling `stream.submit`: no
call is issued and the component state — including `firstTokenReceived`, the
input buffer and the content-block buffer — is returned unchanged, so the
transcript receives no optimistic update either. -/
theorem submit_empty_noop (freshId : String) (stream : StreamView)
    (st : ThreadState) (hinput : jsTrim st.input = "")
    (hblocks : st.contentBlocks = []) :
    (handleSubmit freshId stream st).call = none ∧
      (handleSubmit freshId stream st).state = st := by
  have hb : submitBlocked st stream = true := by
    simp [submitBlocked, hinput, hblocks]
  simp [handleSubmit, hb]

/-- Witness for C1 at a whitespace-only input and no attachments. -/
theorem submit_empty_noop_witness :
    (handleSubmit "u1" {} ({ input := "  " } : ThreadState)).call = none ∧
      (handleSubmit "u1" {} ({ input := "  " } : ThreadState)).state =
        { input := "  " } :=
  submit_empty_noop "u1" {} { input := "  " } (by decide) rfl

/-- Claim C2 fails on the code: the reconciliation effect tests only
`type === "ai"` on the last entry, so a transcript whose length changed and
whose last entry is a tool message leaves `firstTokenReceived` false, while
the claim requires it to become true. -/
theorem firstToken_tool_counterexample :
    ({ id := some "t1", type := MsgType.tool, toolCallId := some "c1" } : Msg).type
        = MsgType.tool ∧
      (([({ id := some "t1", type := MsgType.tool, toolCallId := some "c1" } : Msg)]
          : List Msg).length : Int) ≠ (0 : Int) ∧
      (messagesEffect
          [{ id := some "t1", type := MsgType.tool, toolCallId := some "c1" }]
          0 false).2 = false := by
  refine ⟨rfl, by decide, ?_⟩
  decide

/-- Claim C2 as amended: the effect sets `firstTokenReceived` to true when
the transcript length changes and the last entry is an ai-type message; a
last entry that is not ai-type (in particular a tool message) leaves the
flag unchanged; and the flag is reset to false at the start of every
successful submission (`handleSubmit` past its guard,
`handleSuggestedPrompt` while not loading) and every regeneration. -/
theorem firstToken_set_and_reset (msgs : List Msg) (prevLen : Int) (ftr : Bool)
    (hchanged : (msgs.length : Int) ≠ prevLen) (hai : lastIsAi msgs = true) :
    (messagesEffect msgs prevLen ftr).2 = true ∧
      (∀ ms pl f, lastIsAi ms = false → (messagesEffect ms pl f).2 = f) ∧
      (∀ freshId stream st, submitBlocked st stream = false →
        (handleSubmit freshId stream st).state.firstTokenReceived = false) ∧
      (∀ freshId prompt stream st, stream.isLoading = false →
        (handleSuggestedPrompt freshId prompt stream st).state.firstTokenReceived
          = false) ∧
      (∀ cp st, (handleRegenerate cp st).state.firstTokenReceived = false) := by
  refine ⟨?_, ?_, ?_, ?_, ?_⟩
  · have hne : msgs.length ≠ 0 := by
      cases msgs with
      | nil => simp [lastIsAi] at hai
      | cons a as => simp
    simp [messagesEffect, hchanged, hne, hai]
  · intro ms pl f hfa
    simp [messagesEffect, hfa]
  · intro freshId stream st hnb
    simp [handleSubmit, hnb]
  · intro freshId prompt stream st hnl
    simp [handleSuggestedPrompt, hnl]
  · intro cp st
    rfl

/-- Witness for the amended C2: a one-entry transcript ending in an ai
message flips the flag. -/
theorem firstToken_set_and_reset_witness :
    (messagesEffect [{ type := MsgType.ai }] 0 false).2 = true :=
  (firstToken_set_and_reset [{ type := MsgType.ai }] 0 false (by decide)
    (by decide)).1

/-- Claim C3: two consecutive errors with identical non-empty message text
produce exactly one toast; a following error with different text produces a
second toast; and an intervening cleared error resets the deduplication key
so the same text toasts again. -/
theorem error_dedup (m m' : String) (hm : m ≠ "") (hm' : m' ≠ "")
    (hmm : m ≠ m') :
    (runErrorEvents
        [some { message := some m }, some { message := some m }] none).2 = [m] ∧
      (runErrorEvents
        [some { message := some m }, some { message := some m },
          some { message := some m' }] none).2 = [m, m'] ∧
      (runErrorEvents
        [some { message := some m }, none, some { message := some m }] none).2
          = [m, m] := by
  refine ⟨?_, ?_, ?_⟩ <;>
    simp [runErrorEvents, errorEffect, hm, hm', hmm]

/-- Witness for C3 at the concrete message texts "a" and "b". -/
theorem error_dedup_witness :
    (runErrorEvents
        [some { message := some "a" }, some { message := some "a" }] none).2
          = ["a"] ∧
      (runErrorEvents
        [some { message := some "a" }, some { message := some "a" },
          some { message := some "b" }] none).2 = ["a", "b"] ∧
      (runErrorEvents
        [some { message := some "a" }, none, some { message := some "a" }]
          none).2 = ["a", "a"] :=
  error_dedup "a" "b" (by decide) (by decide) (by decide)

/-- Claim C4: for every checkpoint (including null/undefined ones),
`handleRegenerate` resets `firstTokenReceived`, decrements the
`prevMessageLength` counter by exactly one, and submits an `undefined`
payload whose options carry the checkpoint. -/
theorem regenerate_bookkeeping (cp : Option Checkpoint) (st : ThreadState) :
    (handleRegenerate cp st).state.firstTokenReceived = false ∧
      (handleRegenerate cp st).state.prevMessageLength =
        st.prevMessageLength - 1 ∧
      (handleRegenerate cp st).call =
        some { payload := none, checkpoint := some cp } :=
  ⟨rfl, rfl, rfl⟩

/-- Claim C5: on every non-blocked submission, the artifact context is
merged into the outbound payload and into the optimistic update exactly when
it has at least one key; when it is empty the context field is `undefined`
(`none`), never an empty object, in both places. -/
theorem context_merge (freshId : String) (stream : StreamView)
    (st : ThreadState) (prev : StreamValues)
    (hnb : submitBlocked st stream = false) :
    (st.artifactContext = [] →
      callPayloadContext (handleSubmit freshId stream st) = some none ∧
        callOptimisticContext (handleSubmit freshId stream st) prev
          = some none) ∧
      (st.artifactContext ≠ [] →
        callPayloadContext (handleSubmit freshId stream st)
            = some (some st.artifactContext) ∧
          callOptimisticContext (handleSubmit freshId stream st) prev
            = some (some st.artifactContext)) := by
  constructor
  · intro hctx
    simp [handleSubmit, hnb, callPayloadContext, callOptimisticContext, hctx]
  · intro hctx
    have hlen : st.artifactContext.length > 0 := by
      cases h : st.artifactContext with
      | nil => exact absurd h hctx
      | cons a as => simp
    simp [handleSubmit, hnb, callPayloadContext, callOptimisticContext, hlen]

/-- Witness for C5 at a one-key artifact context. -/
theorem context_merge_witness :
    callPayloadContext
        (handleSubmit "u1" {}
          { input := "hi", artifactContext := [("k", "v")] })
        = some (some [("k", "v")]) ∧
      callOptimisticContext
        (handleSubmit "u1" {}
          { input := "hi", artifactContext := [("k", "v")] }) {}
        = some (some [("k", "v")]) :=
  (context_merge "u1" {} { input := "hi", artifactContext := [("k", "v")] } {}
    (by decide)).2 (by decide)

/-- Claim C6: every `setThreadId` invocation (any id, including null) closes
the artifact side panel and resets the artifact context to the empty
object, so any submission issued from the resulting state can only carry an
omitted (`none`) context field. -/
theorem newThread_clears_artifact (id : Option String) (st : ThreadState) :
    (setThreadId id st).artifactOpen = false ∧
      (setThreadId id st).artifactContext = [] ∧
      (setThreadId id st).threadId = id ∧
      (∀ freshId stream,
        callPayloadContext (handleSubmit freshId stream (setThreadId id st))
            = none ∨
          callPayloadContext (handleSubmit freshId stream (setThreadId id st))
            = some none) := by
  refine ⟨rfl, rfl, rfl, ?_⟩
  intro freshId stream
  cases hb : submitBlocked (setThreadId id st) stream with
  | false =>
    right
    have hctx : (setThreadId id st).artifactContext = [] := rfl
    simp [handleSubmit, hb, callPayloadContext, hctx]
  | true =>
    left
    simp [handleSubmit, hb, callPayloadContext]

/-- Claim C7 fails on the code: `handleRegenerate` has no `isLoading` guard
at its call boundary; even while a stream is in flight it still issues a
`stream.submit` call and mutates the component state (the counter drops from
5 to 4). -/
theorem regenerate_no_guard_counterexample :
    ({ isLoading := true } : StreamView).isLoading = true ∧
      ((handleRegenerate (some { checkpointId := "cp1" })
          ({ prevMessageLength := 5 } : ThreadState)).call).isSome = true ∧
      (handleRegenerate (some { checkpointId := "cp1" })
          ({ prevMessageLength := 5 } : ThreadState)).state ≠
        ({ prevMessageLength := 5 } : ThreadState) := by
  refine ⟨rfl, rfl, ?_⟩
  decide

/-- Claim C7 as amended: while a stream operation is in flight,
`handleSubmit` and `handleSuggestedPrompt` are rejected at the call boundary
without calling `stream.submit` and without mutating state;
`handleRegenerate` carries no such guard and submits (mutating its counter)
regardless of the loading flag. -/
theorem submit_guard (freshId prompt : String) (stream : StreamView)
    (st : ThreadState) (cp : Option Checkpoint)
    (hload : stream.isLoading = true) :
    (handleSubmit freshId stream st).call = none ∧
      (handleSubmit freshId stream st).state = st ∧
      (handleSuggestedPrompt freshId prompt stream st).call = none ∧
      (handleSuggestedPrompt freshId prompt stream st).state = st ∧
      ((handleRegenerate cp st).call).isSome = true ∧
      (handleRegenerate cp st).state.prevMessageLength ≠
        st.prevMessageLength := by
  have hb : submitBlocked st stream = true := by
    simp [submitBlocked, hload]
  refine ⟨?_, ?_, ?_, ?_, rfl, ?_⟩
  · simp [handleSubmit, hb]
  · simp [handleSubmit, hb]
  · simp [handleSuggestedPrompt, hload]
  · simp [handleSuggestedPrompt, hload]
  · show st.prevMessageLength - 1 ≠ st.prevMessageLength
    omega

/-- Witness for the amended C7 at a loading stream. -/
theorem submit_guard_witness :
    (handleSubmit "u1" { isLoading := true }
        ({ input := "hi" } : ThreadState)).call = none ∧
      (handleSubmit "u1" { isLoading := true }
        ({ input := "hi" } : ThreadState)).state = { input := "hi" } ∧
      (handleSuggestedPrompt "u1" "p" { isLoading := true }
        ({ input := "hi" } : ThreadState)).call = none ∧
      (handleSuggestedPrompt "u1" "p" { isLoading := true }
        ({ input := "hi" } : ThreadState)).state = { input := "hi" } ∧
      ((handleRegenerate none ({ input := "hi" } : ThreadState)).call).isSome
        = true ∧
      (handleRegenerate none ({ input := "hi" } : ThreadState)).state.prevMessageLength ≠ ({ input := "hi" } : ThreadState).prevMessageLength :=
  submit_guard "u1" "p" { isLoading := true } { input := "hi" } none rfl

/-- Claim C8: the tool-call normalizer is idempotent on every transcript,
and the rendered history is never normalized — the render projection only
ever removes entries (it is a sublist of its input), it cannot contain the
synthesized responses normalization would insert.  The payload construction
path in `handleSubmit` is, by its definition above, the only consumer of
`ensureToolCallsHaveResponses`. -/
theorem normalize_idempotent (T : List Msg) :
    ensureToolCallsHaveResponses (ensureToolCallsHaveResponses T) =
        ensureToolCallsHaveResponses T ∧
      List.Sublist (renderProjection T) T :=
  ⟨ensureGo_idem T [], List.filter_sublist T⟩

/-- Claim C9: the rendered projection keeps the original order (it is a
sublist of the transcript) and contains exactly the messages whose id does
not start with the reserved prefix — messages with no id at all are always
retained. -/
theorem render_projection_spec (msgs : List Msg) :
    List.Sublist (renderProjection msgs) msgs ∧
      ∀ m : Msg, m ∈ renderProjection msgs ↔
        (m ∈ msgs ∧
          ∀ s, m.id = some s →
            s.startsWith DO_NOT_RENDER_ID_PREFIX = false) := by
  refine ⟨List.filter_sublist msgs, ?_⟩
  intro m
  rw [renderProjection, List.mem_filter]
  constructor
  · rintro ⟨hm, hr⟩
    refine ⟨hm, ?_⟩
    intro s hs
    simp [shouldRender, hs] at hr
    simpa using hr
  · rintro ⟨hm, hr⟩
    refine ⟨hm, ?_⟩
    cases hid : m.id with
    | none => simp [shouldRender, hid]
    | some s =>
      have := hr s hid
      simp [shouldRender, hid, this]

/-- Claim C10: a set stream error whose message is falsy (absent or the
empty string) is silently swallowed: no toast is emitted and the stored
deduplication key is left unchanged. -/
theorem error_falsy_swallowed (lastError : Option String) (e : StreamError)
    (h : e.message = none ∨ e.message = some "") :
    errorEffect (some e) lastError = (lastError, []) := by
  rcases h with h | h <;> simp [errorEffect, h]

/-- Witness for C10: a message-less error leaves the ref at "boom" and
emits nothing. -/
theorem error_falsy_swallowed_witness :
    errorEffect (some { message := none }) (some "boom") = (some "boom", []) :=
  error_falsy_swallowed (some "boom") { message := none } (Or.inl rfl)

end Techrag
